import Mathlib

/-
  Verification development for the rocket-launch-tracker repository.

  Shallow embedding of the ingestion / reconciliation / query pipeline:
    - the mapping step mapLaunchToDb (backend/src/services/launchLibrary.js)
    - the persistent store operations upsertLaunch / getLaunchById and the
      filtered query queryLaunches (backend/src/db/database.js, and the
      older copy of queryLaunches without the state filter)
    - the route-level pagination parsing and the hasMore flag
      (backend/src/routes/launches.js)
    - the sync-run journal (createSyncLog / updateSyncLog) and the two sync
      workflows dailySync (incremental) and initialLoad (full)
      (backend/scripts/dailySync.js and initialLoad.js).

  Modelling conventions:
    - JS values that may be null / undefined are Option values.
    - SQLite REAL columns that the code only passes through are modelled as
      Int; only the JS truthiness structure of the values matters here.
    - The SQLite store is a list of rows; upsert replaces the row in place
      (INSERT .. ON CONFLICT(id) DO UPDATE keeps the row position) and
      stamps updated_at with the supplied clock value (CURRENT_TIMESTAMP).
    - Thrown JS exceptions are modelled by outcome-carrying inputs: a raw
      payload whose mapping throws carries mapResult = none, a record whose
      store write throws carries upsertOk = false, and a page fetch that
      throws is a PageResp.fail input.
    - The manual_payloads LEFT JOIN of the data query only contributes
      extra read-only columns (one pattern match per name); it is omitted,
      so a query returns the launches rows themselves.
-/

namespace RocketTracker

/-! ### JS coercion helpers -/

/-- Models the JS expression x || null on a string field: a missing value
stays null, and a present empty string is coerced to null as well. -/
def orNullStr : Option String → Option String
  | some s => if s = "" then none else some s
  | none => none

/-- Models the JS expression x || null on a numeric field: a missing value
stays null, and a present zero is coerced to null as well. -/
def orNullInt : Option Int → Option Int
  | some n => if n = 0 then none else some n
  | none => none

/-- JS truthiness of an optional string: null, undefined and the empty
string are falsy, every other string is truthy. -/
def truthyStr : Option String → Bool
  | some s => s ≠ ""
  | none => false

/-! ### The raw Launch Library 2 payload shape

Nested object shape read by mapLaunchToDb; every leaf the code reads is
present here, nullable exactly where the code uses optional chaining. -/

structure ApiStatus where
  id : Option Int := none
  name : Option String := none
  «abbrev» : Option String := none
  description : Option String := none
deriving Repr, DecidableEq

structure ApiRocketConfig where
  id : Option Int := none
  name : Option String := none
  family : Option String := none
  variant : Option String := none
  full_name : Option String := none
deriving Repr, DecidableEq

structure ApiSpacecraftStatus where
  name : Option String := none
deriving Repr, DecidableEq

structure ApiSpacecraftConfig where
  payload_capacity : Option Int := none
deriving Repr, DecidableEq

structure ApiSpacecraft where
  name : Option String := none
  serial_number : Option String := none
  status : Option ApiSpacecraftStatus := none
  description : Option String := none
  spacecraft_config : Option ApiSpacecraftConfig := none
deriving Repr, DecidableEq

structure ApiSpacecraftStage where
  id : Option Int := none
  spacecraft : Option ApiSpacecraft := none
  destination : Option String := none
  spacecraft_count : Option Int := none
deriving Repr, DecidableEq

structure ApiRocket where
  configuration : Option ApiRocketConfig := none
  spacecraft_stage : Option ApiSpacecraftStage := none
deriving Repr, DecidableEq

structure ApiProvider where
  id : Option Int := none
  name : Option String := none
  «abbrev» : Option String := none
  type : Option String := none
  country_code : Option String := none
deriving Repr, DecidableEq

structure ApiLocation where
  id : Option Int := none
  name : Option String := none
  country_code : Option String := none
  map_image : Option String := none
  timezone_name : Option String := none
deriving Repr, DecidableEq

structure ApiPad where
  id : Option Int := none
  name : Option String := none
  wiki_url : Option String := none
  map_url : Option String := none
  latitude : Option Int := none
  longitude : Option Int := none
  location : Option ApiLocation := none
deriving Repr, DecidableEq

structure ApiOrbit where
  id : Option Int := none
  name : Option String := none
  «abbrev» : Option String := none
deriving Repr, DecidableEq

structure ApiMission where
  id : Option Int := none
  name : Option String := none
  description : Option String := none
  type : Option String := none
  orbit : Option ApiOrbit := none
deriving Repr, DecidableEq

structure ApiLaunch where
  id : String
  name : Option String := none
  slug : Option String := none
  status : Option ApiStatus := none
  net : Option String := none
  window_start : Option String := none
  window_end : Option String := none
  rocket : Option ApiRocket := none
  launch_service_provider : Option ApiProvider := none
  pad : Option ApiPad := none
  mission : Option ApiMission := none
  image : Option String := none
  infographic : Option String := none
  webcast_live : Option Bool := none
  url : Option String := none
  last_updated : Option String := none
deriving Repr, DecidableEq

/-! ### The mapped record (columns of the launches table written by
upsertLaunch, without the updated_at metadata column) -/

structure LaunchFields where
  id : String
  name : Option String := none
  slug : Option String := none
  status_id : Option Int := none
  status_name : Option String := none
  status_abbrev : Option String := none
  status_description : Option String := none
  net : Option String := none
  window_start : Option String := none
  window_end : Option String := none
  rocket_id : Option Int := none
  rocket_name : Option String := none
  rocket_family : Option String := none
  rocket_variant : Option String := none
  rocket_full_name : Option String := none
  provider_id : Option Int := none
  provider_name : Option String := none
  provider_abbrev : Option String := none
  provider_type : Option String := none
  provider_country_code : Option String := none
  pad_id : Option Int := none
  pad_name : Option String := none
  pad_wiki_url : Option String := none
  pad_map_url : Option String := none
  pad_latitude : Option Int := none
  pad_longitude : Option Int := none
  location_id : Option Int := none
  location_name : Option String := none
  location_country_code : Option String := none
  location_map_image : Option String := none
  location_timezone : Option String := none
  mission_id : Option Int := none
  mission_name : Option String := none
  mission_description : Option String := none
  mission_type : Option String := none
  mission_orbit_id : Option Int := none
  mission_orbit_name : Option String := none
  mission_orbit_abbrev : Option String := none
  spacecraft_stage_id : Option Int := none
  spacecraft_name : Option String := none
  spacecraft_serial_number : Option String := none
  spacecraft_status : Option String := none
  spacecraft_description : Option String := none
  spacecraft_destination : Option String := none
  payload_count : Option Int := none
  payload_total_mass_kg : Option Int := none
  image_url : Option String := none
  infographic_url : Option String := none
  webcast_live : Int := 0
  slug_url : Option String := none
  last_updated : Option String := none
deriving Repr, DecidableEq

/-- Models the JS optional chaining operator on nullable objects: reads a
field of the object when it is present and yields null otherwise. Kept as a
plain definition (not Option.bind) so that large chains stay tractable. -/
def optChain {A B : Type} (x : Option A) (f : A → Option B) : Option B :=
  match x with
  | some v => f v
  | none => none

/-- Embedding of mapLaunchToDb from backend/src/services/launchLibrary.js:
the fields are given positionally in the declaration order of LaunchFields,
one per line in the order of the source; each line mirrors one line of the
source, with optional chains as optChain and the JS pattern x || null as
orNullStr / orNullInt. -/
def mapLaunchToDb (a : ApiLaunch) : LaunchFields :=
  LaunchFields.mk
    a.id
    (orNullStr a.name)
    (orNullStr a.slug)
    (orNullInt (optChain a.status fun s => s.id))
    (orNullStr (optChain a.status fun s => s.name))
    (orNullStr (optChain a.status fun s => s.«abbrev»))
    (orNullStr (optChain a.status fun s => s.description))
    (orNullStr a.net)
    (orNullStr a.window_start)
    (orNullStr a.window_end)
    (orNullInt (optChain (optChain a.rocket fun r => r.configuration) fun c => c.id))
    (orNullStr (optChain (optChain a.rocket fun r => r.configuration) fun c => c.name))
    (orNullStr (optChain (optChain a.rocket fun r => r.configuration) fun c => c.family))
    (orNullStr (optChain (optChain a.rocket fun r => r.configuration) fun c => c.variant))
    (orNullStr (optChain (optChain a.rocket fun r => r.configuration) fun c => c.full_name))
    (orNullInt (optChain a.launch_service_provider fun p => p.id))
    (orNullStr (optChain a.launch_service_provider fun p => p.name))
    (orNullStr (optChain a.launch_service_provider fun p => p.«abbrev»))
    (orNullStr (optChain a.launch_service_provider fun p => p.type))
    (orNullStr (optChain a.launch_service_provider fun p => p.country_code))
    (orNullInt (optChain a.pad fun p => p.id))
    (orNullStr (optChain a.pad fun p => p.name))
    (orNullStr (optChain a.pad fun p => p.wiki_url))
    (orNullStr (optChain a.pad fun p => p.map_url))
    (orNullInt (optChain a.pad fun p => p.latitude))
    (orNullInt (optChain a.pad fun p => p.longitude))
    (orNullInt (optChain (optChain a.pad fun p => p.location) fun l => l.id))
    (orNullStr (optChain (optChain a.pad fun p => p.location) fun l => l.name))
    (orNullStr (optChain (optChain a.pad fun p => p.location) fun l => l.country_code))
    (orNullStr (optChain (optChain a.pad fun p => p.location) fun l => l.map_image))
    (orNullStr (optChain (optChain a.pad fun p => p.location) fun l => l.timezone_name))
    (orNullInt (optChain a.mission fun m => m.id))
    (orNullStr (optChain a.mission fun m => m.name))
    (orNullStr (optChain a.mission fun m => m.description))
    (orNullStr (optChain a.mission fun m => m.type))
    (orNullInt (optChain (optChain a.mission fun m => m.orbit) fun o => o.id))
    (orNullStr (optChain (optChain a.mission fun m => m.orbit) fun o => o.name))
    (orNullStr (optChain (optChain a.mission fun m => m.orbit) fun o => o.«abbrev»))
    (orNullInt (optChain (optChain a.rocket fun r => r.spacecraft_stage) fun st => st.id))
    (orNullStr (optChain (optChain (optChain a.rocket fun r => r.spacecraft_stage) fun st => st.spacecraft) fun sc => sc.name))
    (orNullStr (optChain (optChain (optChain a.rocket fun r => r.spacecraft_stage) fun st => st.spacecraft) fun sc => sc.serial_number))
    (orNullStr (optChain (optChain (optChain (optChain a.rocket fun r => r.spacecraft_stage) fun st => st.spacecraft) fun sc => sc.status) fun ss => ss.name))
    (orNullStr (optChain (optChain (optChain a.rocket fun r => r.spacecraft_stage) fun st => st.spacecraft) fun sc => sc.description))
    (orNullStr (optChain (optChain a.rocket fun r => r.spacecraft_stage) fun st => st.destination))
    (orNullInt (optChain (optChain a.rocket fun r => r.spacecraft_stage) fun st => st.spacecraft_count))
    (orNullInt (optChain (optChain (optChain (optChain a.rocket fun r => r.spacecraft_stage) fun st => st.spacecraft) fun sc => sc.spacecraft_config) fun cfg => cfg.payload_capacity))
    (orNullStr a.image)
    (orNullStr a.infographic)
    (if a.webcast_live.getD false then 1 else 0)
    (orNullStr a.url)
    (orNullStr a.last_updated)

/-! ### The persistent store (launches table)

A store is the list of rows of the launches table; a row is the mapped
record plus the updated_at metadata column that the upsert statement sets
to CURRENT_TIMESTAMP (modelled by an explicit clock argument). -/

structure DbRow where
  fields : LaunchFields
  updated_at : Nat
deriving Repr, DecidableEq

/-- Embedding of upsertLaunch (backend/src/db/database.js): INSERT with
ON CONFLICT(id) DO UPDATE SET of every column. A conflicting row keeps its
position and has every attribute replaced and updated_at restamped; a new
row is appended. -/
def upsertLaunch : List DbRow → LaunchFields → Nat → List DbRow
  | [], m, now => [⟨m, now⟩]
  | r :: rs, m, now =>
    if r.fields.id = m.id then ⟨m, now⟩ :: rs else r :: upsertLaunch rs m now

/-- Embedding of getLaunchById: SELECT of the row whose id matches (the
manual_payloads join only adds read-only columns and is omitted). -/
def getLaunchById (store : List DbRow) (i : String) : Option DbRow :=
  store.find? fun r => r.fields.id == i

/-! ### The reconciliation step of dailySync -/

inductive Classification where
  | added
  | updated
  | unchanged
deriving Repr, DecidableEq

/-- Embedding of the per-record classification of dailySync
(backend/scripts/dailySync.js): a record absent from the store is added, a
record present under a different last_updated is updated via upsertLaunch,
and a record present under the identical last_updated is left alone. -/
def reconcile (store : List DbRow) (m : LaunchFields) (now : Nat) :
    Classification × List DbRow :=
  match getLaunchById store m.id with
  | none => (Classification.added, upsertLaunch store m now)
  | some existing =>
    if existing.fields.last_updated = m.last_updated then
      (Classification.unchanged, store)
    else
      (Classification.updated, upsertLaunch store m now)

/-! ### The query layer (queryLaunches) -/

/-- ASCII lowercase of one character (the SQLite LIKE case folding). -/
def toLowerCh (c : Char) : Char :=
  if 65 ≤ c.toNat ∧ c.toNat ≤ 90 then Char.ofNat (c.toNat + 32) else c

/-- ASCII lowercase of a string, as its character list (the model of the
toLowerCase calls; kept on lists so that every use evaluates). -/
def lowerStr (s : String) : List Char :=
  s.toList.map toLowerCh

/-- Contiguous-sublist test used for the LIKE patterns. -/
def containsSub (pat : List Char) : List Char → Bool
  | [] => pat.isEmpty
  | c :: rest => pat.isPrefixOf (c :: rest) || containsSub pat rest

/-- SQLite LIKE with a pattern of the shape percent-text-percent: ASCII
case-insensitive substring containment; NULL columns match nothing. -/
def likeContains (col : Option String) (pat : String) : Bool :=
  match col with
  | some s => containsSub (lowerStr pat) (lowerStr s)
  | none => false

/-- SQL equality against a bound literal; NULL columns match nothing. -/
def sqlEq (col : Option String) (v : String) : Bool :=
  match col with
  | some s => s == v
  | none => false

/-- SQL col >= literal on text (SQLite compares text lexicographically). -/
def sqlGe (col : Option String) (v : String) : Bool :=
  match col with
  | some s => decide (v ≤ s)
  | none => false

/-- SQL col <= literal on text. -/
def sqlLe (col : Option String) (v : String) : Bool :=
  match col with
  | some s => decide (s ≤ v)
  | none => false

/-- SQL col < literal on text. -/
def sqlLt (col : Option String) (v : String) : Bool :=
  match col with
  | some s => decide (s < v)
  | none => false

/-- Models the JS pattern if (x) whereClauses.push(..): the predicate is
active only when the filter value is truthy (present and nonempty). -/
def whenActive (x : Option String) (p : String → Bool) : Bool :=
  match x with
  | some s => if s = "" then true else p s
  | none => true

/-- The filter object destructured by queryLaunches, with the destructuring
defaults of the source. The JS keys from and to are fromDate and toDate
here because from is a Lean keyword. -/
structure Filters where
  upcoming : Bool := false
  past : Bool := false
  provider : Option String := none
  country : Option String := none
  state : Option String := none
  location : Option String := none
  rocket : Option String := none
  status : Option String := none
  fromDate : Option String := none
  toDate : Option String := none
  search : Option String := none
  limit : Int := 20
  offset : Int := 0
  sort : String := "net"
  order : String := "asc"
deriving Repr, DecidableEq

/-- The WHERE clause built by queryLaunches in backend/src/db/database.js,
as a per-row predicate: the conjunction of the pushed clauses, one line per
source clause, with nowS standing for datetime of now. -/
def rowMatchesDb (nowS : String) (f : Filters) (r : LaunchFields) : Bool :=
  (if f.upcoming then sqlGe r.net nowS
   else if f.past then sqlLt r.net nowS
   else true)
  && whenActive f.fromDate (fun v => sqlGe r.net v)
  && whenActive f.toDate (fun v => sqlLe r.net v)
  && whenActive f.provider (fun v => likeContains r.provider_name v)
  && whenActive f.country (fun v => sqlEq r.location_country_code v)
  && whenActive f.state (fun v => likeContains r.location_name (", " ++ v ++ ","))
  && whenActive f.location (fun v => likeContains r.location_name v)
  && whenActive f.rocket (fun v => likeContains r.rocket_name v || likeContains r.rocket_family v)
  && whenActive f.status (fun v => sqlEq r.status_abbrev v)
  && whenActive f.search (fun v =>
       likeContains r.name v || likeContains r.mission_name v ||
       likeContains r.mission_description v || likeContains r.provider_name v)

/-- The WHERE clause built by the queryLaunches copy in src/unnamed/part_004:
identical to rowMatchesDb except that no state clause exists there. -/
def rowMatchesP4 (nowS : String) (f : Filters) (r : LaunchFields) : Bool :=
  (if f.upcoming then sqlGe r.net nowS
   else if f.past then sqlLt r.net nowS
   else true)
  && whenActive f.fromDate (fun v => sqlGe r.net v)
  && whenActive f.toDate (fun v => sqlLe r.net v)
  && whenActive f.provider (fun v => likeContains r.provider_name v)
  && whenActive f.country (fun v => sqlEq r.location_country_code v)
  && whenActive f.location (fun v => likeContains r.location_name v)
  && whenActive f.rocket (fun v => likeContains r.rocket_name v || likeContains r.rocket_family v)
  && whenActive f.status (fun v => sqlEq r.status_abbrev v)
  && whenActive f.search (fun v =>
       likeContains r.name v || likeContains r.mission_name v ||
       likeContains r.mission_description v || likeContains r.provider_name v)

/-- The sort-field allow-list of queryLaunches. -/
def validSortFields : List String := ["net", "provider_name", "location_name", "rocket_name"]

/-- The ORDER BY column as a key function (unknown fields already fell back
to net before this is called). -/
def sortKey (field : String) (r : LaunchFields) : Option String :=
  if field = "provider_name" then r.provider_name
  else if field = "location_name" then r.location_name
  else if field = "rocket_name" then r.rocket_name
  else r.net

/-- SQLite ascending text comparison with NULLs first. -/
def optStrLe (a b : Option String) : Bool :=
  match a, b with
  | none, _ => true
  | some _, none => false
  | some x, some y => decide (x ≤ y)

/-- Insertion into a sorted list (deterministic stable model of the SQLite
ORDER BY). -/
def insertSorted {A : Type} (le : A → A → Bool) (a : A) : List A → List A
  | [] => [a]
  | b :: bs => if le a b then a :: b :: bs else b :: insertSorted le a bs

/-- Insertion sort by a boolean comparison. -/
def sortByLe {A : Type} (le : A → A → Bool) : List A → List A
  | [] => []
  | a :: rest => insertSorted le a (sortByLe le rest)

/-- SQLite LIMIT and OFFSET: a negative OFFSET behaves as zero, a negative
LIMIT means no limit, LIMIT 0 yields no rows. -/
def sqlPage {A : Type} (rows : List A) (lim off : Int) : List A :=
  let dropped := rows.drop off.toNat
  if lim < 0 then dropped else dropped.take lim.toNat

structure QueryResult where
  launches : List DbRow
  total : Nat
deriving Repr, DecidableEq

/-- Embedding of queryLaunches from backend/src/db/database.js: build the
WHERE predicate, count the matching rows for total, sort by the validated
sort field and direction, and page with LIMIT and OFFSET. -/
def queryLaunches (nowS : String) (f : Filters) (store : List DbRow) : QueryResult :=
  let matched := store.filter fun r => rowMatchesDb nowS f r.fields
  let total := matched.length
  let sortField := if validSortFields.contains f.sort then f.sort else "net"
  let descOrder := lowerStr f.order == ("desc").toList
  let le : DbRow → DbRow → Bool := fun a b =>
    if descOrder then optStrLe (sortKey sortField b.fields) (sortKey sortField a.fields)
    else optStrLe (sortKey sortField a.fields) (sortKey sortField b.fields)
  let sorted := sortByLe le matched
  ⟨sqlPage sorted f.limit f.offset, total⟩

/-- Embedding of the queryLaunches copy in src/unnamed/part_004, which has
no state filter; everything else is identical. -/
def queryLaunchesP4 (nowS : String) (f : Filters) (store : List DbRow) : QueryResult :=
  let matched := store.filter fun r => rowMatchesP4 nowS f r.fields
  let total := matched.length
  let sortField := if validSortFields.contains f.sort then f.sort else "net"
  let descOrder := lowerStr f.order == ("desc").toList
  let le : DbRow → DbRow → Bool := fun a b =>
    if descOrder then optStrLe (sortKey sortField b.fields) (sortKey sortField a.fields)
    else optStrLe (sortKey sortField a.fields) (sortKey sortField b.fields)
  let sorted := sortByLe le matched
  ⟨sqlPage sorted f.limit f.offset, total⟩

/-! ### Route-level pagination parsing (backend/src/routes/launches.js) -/

/-- Models the JS pattern parseInt(x) || d: the argument is the parseInt
result with none for an absent parameter or NaN; zero is falsy and also
falls back to the default. -/
def jsOrInt (x : Option Int) (d : Int) : Int :=
  match x with
  | some n => if n = 0 then d else n
  | none => d

/-- The effective limit of GET /api/launches: parseInt(limit) || 20, then
the cap if (filters.limit > 100) filters.limit = 100. -/
def routeLimit (raw : Option Int) : Int :=
  let l := jsOrInt raw 20
  if l > 100 then 100 else l

/-- The effective offset of GET /api/launches: parseInt(offset) || 0. -/
def routeOffset (raw : Option Int) : Int :=
  jsOrInt raw 0

/-- The pagination flag of GET /api/launches:
hasMore is filters.offset + filters.limit < total. -/
def hasMoreFlag (off lim : Int) (total : Nat) : Bool :=
  decide (off + lim < (total : Int))

/-! ### The Sync Run journal (sync_log table) -/

/-- A sync_log row; counter columns default to zero and status defaults to
running as in schema.sql; completed_at carries no information the claims
use and is omitted. -/
structure SyncRun where
  id : Nat
  sync_type : String
  status : String := "running"
  records_fetched : Nat := 0
  records_added : Nat := 0
  records_updated : Nat := 0
  records_unchanged : Nat := 0
  api_calls_made : Nat := 0
  last_api_offset : Option Nat := none
  error_message : Option String := none
deriving Repr, DecidableEq

/-- Embedding of createSyncLog: unconditionally INSERT a new row with
status running; the journal list is newest-first and the fresh id is the
next unused one. No admission check of any kind is performed. -/
def createSyncLog (j : List SyncRun) (ty : String) : Nat × List SyncRun :=
  let newId := j.length + 1
  (newId, { id := newId, sync_type := ty } :: j)

/-- Embedding of updateSyncLog: UPDATE sync_log SET the given fields WHERE
id matches; upd sets exactly the fields of the call site. -/
def updateSyncLog (j : List SyncRun) (syncId : Nat) (upd : SyncRun → SyncRun) : List SyncRun :=
  j.map fun r => if r.id = syncId then upd r else r

def findRun (j : List SyncRun) (syncId : Nat) : Option SyncRun :=
  j.find? fun r => r.id == syncId

/-! ### The two sync workflows

A page fetch outcome is part of the input: PageResp.fail models a thrown
fetch (rateLimited when the message mentions 429 or throttled), PageResp.ok
carries the results array (none for a response with no results field) and
whether response.next is non-null. A raw record carries its mapping outcome
(none when mapLaunchToDb throws) and whether its store write succeeds. -/

structure RawItem where
  mapResult : Option LaunchFields
  upsertOk : Bool := true
deriving Repr, DecidableEq

inductive PageResp where
  | fail (msg : String) (rateLimited : Bool)
  | ok (results : Option (List RawItem)) (hasNext : Bool)
deriving Repr, DecidableEq

/-- The in-memory loop state of either sync script: the local counter
variables, the current offset and the store being written. -/
structure LoopState where
  store : List DbRow
  fetched : Nat := 0
  added : Nat := 0
  updated : Nat := 0
  unchanged : Nat := 0
  apiCalls : Nat := 0
  offset : Nat := 0
deriving Repr, DecidableEq

/-- One iteration of the per-record loop of dailySync: a mapping failure is
caught and skipped with no counter touched; otherwise totalFetched
increments and the record is classified, and a store write that throws is
caught after the fetched increment, so no classification counter moves. -/
def dailyProcessItem (st : LoopState) (it : RawItem) : LoopState :=
  match it.mapResult with
  | none => st
  | some m =>
    match getLaunchById st.store m.id with
    | none =>
      if it.upsertOk then
        { st with fetched := st.fetched + 1, added := st.added + 1,
                  store := upsertLaunch st.store m 0 }
      else
        { st with fetched := st.fetched + 1 }
    | some existing =>
      if existing.fields.last_updated = m.last_updated then
        { st with fetched := st.fetched + 1, unchanged := st.unchanged + 1 }
      else if it.upsertOk then
        { st with fetched := st.fetched + 1, updated := st.updated + 1,
                  store := upsertLaunch st.store m 0 }
      else
        { st with fetched := st.fetched + 1 }

/-- The per-page progress update of dailySync (all counters plus
last_api_offset, written before offset advances). -/
def checkpointDaily (j : List SyncRun) (syncId : Nat) (st : LoopState) : List SyncRun :=
  updateSyncLog j syncId fun r =>
    { r with records_fetched := st.fetched, records_added := st.added,
             records_updated := st.updated, records_unchanged := st.unchanged,
             api_calls_made := st.apiCalls, last_api_offset := some st.offset }

/-- The terminal success update of dailySync. -/
def markDailySuccess (j : List SyncRun) (syncId : Nat) (st : LoopState) : List SyncRun :=
  updateSyncLog j syncId fun r =>
    { r with status := "success", records_fetched := st.fetched,
             records_added := st.added, records_updated := st.updated,
             records_unchanged := st.unchanged, api_calls_made := st.apiCalls }

/-- The terminal failure update of dailySync; note that the source does not
write records_unchanged on this path. -/
def markDailyFailed (j : List SyncRun) (syncId : Nat) (st : LoopState) (msg : String) : List SyncRun :=
  updateSyncLog j syncId fun r =>
    { r with status := "failed", error_message := some msg,
             records_fetched := st.fetched, records_added := st.added,
             records_updated := st.updated, api_calls_made := st.apiCalls }

/-- The fetch-process-checkpoint loop of dailySync. A thrown fetch reaches
the outer catch and marks the run failed; a response with no results or an
empty results array breaks out and the run is marked success; otherwise the
page is processed, the checkpoint written, and the loop continues while
response.next is non-null. Exhausting the page inputs while more pages are
expected models an interrupted process: the run row stays running. -/
def dailyLoop (j : List SyncRun) (syncId : Nat) (st : LoopState) :
    List PageResp → List SyncRun × LoopState
  | [] => (j, st)
  | PageResp.fail msg _ :: _ => (markDailyFailed j syncId st msg, st)
  | PageResp.ok results hasNext :: rest =>
    let st1 := { st with apiCalls := st.apiCalls + 1 }
    match results with
    | none => (markDailySuccess j syncId st1, st1)
    | some [] => (markDailySuccess j syncId st1, st1)
    | some items =>
      let st2 := items.foldl dailyProcessItem st1
      let j1 := checkpointDaily j syncId st2
      let st3 := { st2 with offset := st2.offset + 100 }
      if hasNext then dailyLoop j1 syncId st3 rest
      else (markDailySuccess j1 syncId st3, st3)

/-- dailySync startup: always createSyncLog, never a lookup of an existing
running run. -/
def dailySyncInit (j : List SyncRun) : Nat × List SyncRun :=
  createSyncLog j ("incremental")

/-- A full invocation of dailySync over the given page inputs. -/
def runDailySync (j : List SyncRun) (store : List DbRow) (pages : List PageResp) :
    List SyncRun × LoopState :=
  let idj := dailySyncInit j
  dailyLoop idj.2 idj.1 { store := store } pages

/-- One iteration of the per-record loop of initialLoad: mapping failures
are caught and skipped; a successful upsert is followed by totalFetched
increment and, because the SQLite upsert reports changes = 1 for insert and
conflict-update alike, by totalAdded increment; a write that throws is
caught before either counter moved. -/
def fullProcessItem (st : LoopState) (it : RawItem) : LoopState :=
  match it.mapResult with
  | none => st
  | some m =>
    if it.upsertOk then
      { st with store := upsertLaunch st.store m 0,
                fetched := st.fetched + 1, added := st.added + 1 }
    else st

/-- The per-page progress update of initialLoad (no records_unchanged in
the source update object). -/
def checkpointFull (j : List SyncRun) (syncId : Nat) (st : LoopState) : List SyncRun :=
  updateSyncLog j syncId fun r =>
    { r with records_fetched := st.fetched, records_added := st.added,
             records_updated := st.updated, api_calls_made := st.apiCalls,
             last_api_offset := some st.offset }

/-- The terminal success update of initialLoad. -/
def markFullSuccess (j : List SyncRun) (syncId : Nat) (st : LoopState) : List SyncRun :=
  updateSyncLog j syncId fun r =>
    { r with status := "success", records_fetched := st.fetched,
             records_added := st.added, records_updated := st.updated,
             api_calls_made := st.apiCalls }

/-- The terminal failure update of initialLoad; the source writes neither
records_updated nor records_unchanged on this path. -/
def markFullFailed (j : List SyncRun) (syncId : Nat) (st : LoopState) (msg : String) : List SyncRun :=
  updateSyncLog j syncId fun r =>
    { r with status := "failed", error_message := some msg,
             records_fetched := st.fetched, records_added := st.added,
             api_calls_made := st.apiCalls }

/-- The error text thrown when the rate-limit retry ceiling is exceeded. -/
def rateLimitMsg : String := "Rate limit exceeded after 3 retries. Please try again later."

/-- The fetch-process-checkpoint loop of initialLoad, with the per-page
retry loop inlined: a rate-limited fetch failure sleeps and retries the
same page up to maxRetries = 3 times (retries resets to zero on every new
page), any other fetch failure aborts at once, and exceeding the ceiling
throws rateLimitMsg; every abort reaches the outer catch, which marks the
run failed with the checkpoint row left as last written. -/
def fullLoop (j : List SyncRun) (syncId : Nat) (st : LoopState) (retries : Nat) :
    List PageResp → List SyncRun × LoopState
  | [] => (j, st)
  | PageResp.fail _ true :: rest =>
    if retries + 1 > 3 then (markFullFailed j syncId st rateLimitMsg, st)
    else fullLoop j syncId st (retries + 1) rest
  | PageResp.fail msg false :: _ => (markFullFailed j syncId st msg, st)
  | PageResp.ok results hasNext :: rest =>
    let st1 := { st with apiCalls := st.apiCalls + 1 }
    match results with
    | none => (markFullSuccess j syncId st1, st1)
    | some [] => (markFullSuccess j syncId st1, st1)
    | some items =>
      let st2 := items.foldl fullProcessItem st1
      let j1 := checkpointFull j syncId st2
      let st3 := { st2 with offset := st2.offset + 100 }
      if hasNext then fullLoop j1 syncId st3 0 rest
      else (markFullSuccess j1 syncId st3, st3)

/-- Whether a sync run of the given type is recorded as running
(the resume lookup of initialLoad with sync_type = full). -/
def isRunningFull (r : SyncRun) : Bool :=
  r.sync_type == "full" && r.status == "running"

/-- The resume lookup of initialLoad: the most recent running full sync
(the journal list is newest-first, matching ORDER BY started_at DESC
LIMIT 1). -/
def findIncompleteFull (j : List SyncRun) : Option SyncRun :=
  j.find? isRunningFull

/-- The startup values of an initialLoad invocation. -/
structure InitResult where
  syncId : Nat
  offset : Nat
  fetched : Nat
  added : Nat
  apiCalls : Nat
  journal : List SyncRun
deriving Repr, DecidableEq

/-- initialLoad startup: resume an incomplete (running) full sync when one
exists, continuing from last_api_offset + 100 (BATCH_SIZE) with
records_fetched, records_added and api_calls_made carried over (the resume
query does not select records_updated, so totalUpdated restarts at zero);
otherwise create a new sync log row and start from offset zero. -/
def initialLoadInit (j : List SyncRun) : InitResult :=
  match findIncompleteFull j with
  | some r =>
    { syncId := r.id, offset := r.last_api_offset.getD 0 + 100,
      fetched := r.records_fetched, added := r.records_added,
      apiCalls := r.api_calls_made, journal := j }
  | none =>
    let idj := createSyncLog j ("full")
    { syncId := idj.1, offset := 0, fetched := 0, added := 0,
      apiCalls := 0, journal := idj.2 }

/-- A full invocation of initialLoad over the given page inputs. -/
def runInitialLoad (j : List SyncRun) (store : List DbRow) (pages : List PageResp) :
    List SyncRun × LoopState :=
  let ini := initialLoadInit j
  fullLoop ini.journal ini.syncId
    { store := store, offset := ini.offset, fetched := ini.fetched,
      added := ini.added, apiCalls := ini.apiCalls } 0 pages

/-- Every record write across the given page inputs succeeds. -/
def pageAllOk : PageResp → Bool
  | PageResp.ok (some items) _ => items.all fun it => it.upsertOk
  | _ => true

def pagesAllOk (pages : List PageResp) : Bool :=
  pages.all pageAllOk

/-! ### Fixture values used by witnesses and counterexamples -/

def apiFalsyEx : ApiLaunch :=
  { id := "falsy-demo", name := some "", pad := some { latitude := some 0 } }

def lfA : LaunchFields := { id := "L1", last_updated := some "2024-01-01" }

def lfB : LaunchFields := { id := "L1", last_updated := some "2024-02-01" }

def fDefault : Filters := {}

def fNegOffset : Filters := { offset := -1, limit := 10 }

def storeFive : List DbRow :=
  [⟨{ id := "a" }, 0⟩, ⟨{ id := "b" }, 0⟩, ⟨{ id := "c" }, 0⟩,
   ⟨{ id := "d" }, 0⟩, ⟨{ id := "e" }, 0⟩]

def runningIncremental : SyncRun :=
  { id := 7, sync_type := "incremental", status := "running",
    records_fetched := 42, records_added := 10, records_updated := 20,
    records_unchanged := 12, api_calls_made := 4, last_api_offset := some 300 }

def failedFull : SyncRun :=
  { id := 3, sync_type := "full", status := "failed",
    records_fetched := 250, records_added := 250, api_calls_made := 3,
    last_api_offset := some 200 }

def runningFullEx : SyncRun :=
  { id := 5, sync_type := "full", status := "running",
    records_fetched := 200, records_added := 200, api_calls_made := 2,
    last_api_offset := some 100 }

def rfFullResumedEx : SyncRun :=
  { id := 5, sync_type := "full", status := "success", records_fetched := 200,
    records_added := 200, api_calls_made := 3, last_api_offset := some 100 }

def rfDailyEx : SyncRun :=
  { id := 1, sync_type := "incremental", status := "success", api_calls_made := 1 }

def badItem : RawItem := { mapResult := some lfA, upsertOk := false }

/-! ### Helper lemmas -/

theorem orNullStr_eq_none (x : Option String) :
    orNullStr x = none ↔ x = none ∨ x = some "" := by
  cases x with
  | none => simp [orNullStr]
  | some s =>
    by_cases h : s = "" <;> simp [orNullStr, h]

theorem orNullInt_eq_none (x : Option Int) :
    orNullInt x = none ↔ x = none ∨ x = some 0 := by
  cases x with
  | none => simp [orNullInt]
  | some n =>
    by_cases h : n = 0 <;> simp [orNullInt, h]

theorem webcastLiveZero (x : Option Bool) :
    (if x.getD false then (1 : Int) else 0) = 0 ↔ x = none ∨ x = some false := by
  cases x with
  | none => simp
  | some b => cases b <;> simp

theorem getLaunchById_upsert (s : List DbRow) (m : LaunchFields) (n : Nat) :
    getLaunchById (upsertLaunch s m n) m.id = some ⟨m, n⟩ := by
  induction s with
  | nil => simp [upsertLaunch, getLaunchById, List.find?]
  | cons r rs ih =>
    by_cases h : r.fields.id = m.id
    · simp [upsertLaunch, h, getLaunchById, List.find?]
    · have hb : (r.fields.id == m.id) = false := by simp [h]
      simp only [upsertLaunch, if_neg h]
      simpa [getLaunchById, List.find?, hb] using ih

theorem upsert_upsert (s : List DbRow) (m : LaunchFields) (n1 n2 : Nat) :
    upsertLaunch (upsertLaunch s m n1) m n2 = upsertLaunch s m n2 := by
  induction s with
  | nil => simp [upsertLaunch]
  | cons r rs ih =>
    by_cases h : r.fields.id = m.id
    · simp [upsertLaunch, h]
    · simp [upsertLaunch, h, ih]

theorem fields_upsert (s : List DbRow) (m : LaunchFields) (n1 n2 : Nat) :
    (upsertLaunch s m n1).map DbRow.fields
      = (upsertLaunch s m n2).map DbRow.fields := by
  induction s with
  | nil => simp [upsertLaunch]
  | cons r rs ih =>
    by_cases h : r.fields.id = m.id
    · simp [upsertLaunch, h]
    · simp [upsertLaunch, h, ih]

theorem length_insertSorted {A : Type} (le : A → A → Bool) (a : A) (l : List A) :
    (insertSorted le a l).length = l.length + 1 := by
  induction l with
  | nil => rfl
  | cons b bs ih =>
    by_cases h : le a b
    · simp [insertSorted, h]
    · simp [insertSorted, h, ih]

theorem length_sortByLe {A : Type} (le : A → A → Bool) (l : List A) :
    (sortByLe le l).length = l.length := by
  induction l with
  | nil => rfl
  | cons a rest ih => simp [sortByLe, length_insertSorted, ih]

/-! ### C3 -/

/-- C3 (counterexample): the claim says a present falsy value is preserved
by mapToRecord, but mapLaunchToDb maps a present empty name and a present
zero pad latitude to null. -/
theorem C3_counterexample :
    apiFalsyEx.name = some ""
  ∧ (mapLaunchToDb apiFalsyEx).name = none
  ∧ (optChain apiFalsyEx.pad fun p => p.latitude) = some 0
  ∧ (mapLaunchToDb apiFalsyEx).pad_latitude = none :=
  ⟨rfl, rfl, rfl, rfl⟩

/-- C3 (amended): mapLaunchToDb reads each external field explicitly, but
through the JS pattern x || null, so a mapped field is null exactly when the
external field is absent or its present value is falsy (the empty string
for text fields, zero for numeric fields); webcast_live maps to 0 exactly
when absent or false. Only id is passed through unconditionally. -/
theorem C3_map_null_iff_absent_or_falsy (a : ApiLaunch) :
    (mapLaunchToDb a).id = a.id
  ∧ ((mapLaunchToDb a).name = none ↔ a.name = none ∨ a.name = some "")
  ∧ ((mapLaunchToDb a).slug = none ↔ a.slug = none ∨ a.slug = some "")
  ∧ ((mapLaunchToDb a).status_id = none ↔ (optChain a.status fun s => s.id) = none ∨ (optChain a.status fun s => s.id) = some 0)
  ∧ ((mapLaunchToDb a).status_name = none ↔ (optChain a.status fun s => s.name) = none ∨ (optChain a.status fun s => s.name) = some "")
  ∧ ((mapLaunchToDb a).status_abbrev = none ↔ (optChain a.status fun s => s.«abbrev») = none ∨ (optChain a.status fun s => s.«abbrev») = some "")
  ∧ ((mapLaunchToDb a).status_description = none ↔ (optChain a.status fun s => s.description) = none ∨ (optChain a.status fun s => s.description) = some "")
  ∧ ((mapLaunchToDb a).net = none ↔ a.net = none ∨ a.net = some "")
  ∧ ((mapLaunchToDb a).window_start = none ↔ a.window_start = none ∨ a.window_start = some "")
  ∧ ((mapLaunchToDb a).window_end = none ↔ a.window_end = none ∨ a.window_end = some "")
  ∧ ((mapLaunchToDb a).rocket_id = none ↔ (optChain (optChain a.rocket fun r => r.configuration) fun c => c.id) = none ∨ (optChain (optChain a.rocket fun r => r.configuration) fun c => c.id) = some 0)
  ∧ ((mapLaunchToDb a).rocket_name = none ↔ (optChain (optChain a.rocket fun r => r.configuration) fun c => c.name) = none ∨ (optChain (optChain a.rocket fun r => r.configuration) fun c => c.name) = some "")
  ∧ ((mapLaunchToDb a).rocket_family = none ↔ (optChain (optChain a.rocket fun r => r.configuration) fun c => c.family) = none ∨ (optChain (optChain a.rocket fun r => r.configuration) fun c => c.family) = some "")
  ∧ ((mapLaunchToDb a).rocket_variant = none ↔ (optChain (optChain a.rocket fun r => r.configuration) fun c => c.variant) = none ∨ (optChain (optChain a.rocket fun r => r.configuration) fun c => c.variant) = some "")
  ∧ ((mapLaunchToDb a).rocket_full_name = none ↔ (optChain (optChain a.rocket fun r => r.configuration) fun c => c.full_name) = none ∨ (optChain (optChain a.rocket fun r => r.configuration) fun c => c.full_name) = some "")
  ∧ ((mapLaunchToDb a).provider_id = none ↔ (optChain a.launch_service_provider fun p => p.id) = none ∨ (optChain a.launch_service_provider fun p => p.id) = some 0)
  ∧ ((mapLaunchToDb a).provider_name = none ↔ (optChain a.launch_service_provider fun p => p.name) = none ∨ (optChain a.launch_service_provider fun p => p.name) = some "")
  ∧ ((mapLaunchToDb a).provider_abbrev = none ↔ (optChain a.launch_service_provider fun p => p.«abbrev») = none ∨ (optChain a.launch_service_provider fun p => p.«abbrev») = some "")
  ∧ ((mapLaunchToDb a).provider_type = none ↔ (optChain a.launch_service_provider fun p => p.type) = none ∨ (optChain a.launch_service_provider fun p => p.type) = some "")
  ∧ ((mapLaunchToDb a).provider_country_code = none ↔ (optChain a.launch_service_provider fun p => p.country_code) = none ∨ (optChain a.launch_service_provider fun p => p.country_code) = some "")
  ∧ ((mapLaunchToDb a).pad_id = none ↔ (optChain a.pad fun p => p.id) = none ∨ (optChain a.pad fun p => p.id) = some 0)
  ∧ ((mapLaunchToDb a).pad_name = none ↔ (optChain a.pad fun p => p.name) = none ∨ (optChain a.pad fun p => p.name) = some "")
  ∧ ((mapLaunchToDb a).pad_wiki_url = none ↔ (optChain a.pad fun p => p.wiki_url) = none ∨ (optChain a.pad fun p => p.wiki_url) = some "")
  ∧ ((mapLaunchToDb a).pad_map_url = none ↔ (optChain a.pad fun p => p.map_url) = none ∨ (optChain a.pad fun p => p.map_url) = some "")
  ∧ ((mapLaunchToDb a).pad_latitude = none ↔ (optChain a.pad fun p => p.latitude) = none ∨ (optChain a.pad fun p => p.latitude) = some 0)
  ∧ ((mapLaunchToDb a).pad_longitude = none ↔ (optChain a.pad fun p => p.longitude) = none ∨ (optChain a.pad fun p => p.longitude) = some 0)
  ∧ ((mapLaunchToDb a).location_id = none ↔ (optChain (optChain a.pad fun p => p.location) fun l => l.id) = none ∨ (optChain (optChain a.pad fun p => p.location) fun l => l.id) = some 0)
  ∧ ((mapLaunchToDb a).location_name = none ↔ (optChain (optChain a.pad fun p => p.location) fun l => l.name) = none ∨ (optChain (optChain a.pad fun p => p.location) fun l => l.name) = some "")
  ∧ ((mapLaunchToDb a).location_country_code = none ↔ (optChain (optChain a.pad fun p => p.location) fun l => l.country_code) = none ∨ (optChain (optChain a.pad fun p => p.location) fun l => l.country_code) = some "")
  ∧ ((mapLaunchToDb a).location_map_image = none ↔ (optChain (optChain a.pad fun p => p.location) fun l => l.map_image) = none ∨ (optChain (optChain a.pad fun p => p.location) fun l => l.map_image) = some "")
  ∧ ((mapLaunchToDb a).location_timezone = none ↔ (optChain (optChain a.pad fun p => p.location) fun l => l.timezone_name) = none ∨ (optChain (optChain a.pad fun p => p.location) fun l => l.timezone_name) = some "")
  ∧ ((mapLaunchToDb a).mission_id = none ↔ (optChain a.mission fun m => m.id) = none ∨ (optChain a.mission fun m => m.id) = some 0)
  ∧ ((mapLaunchToDb a).mission_name = none ↔ (optChain a.mission fun m => m.name) = none ∨ (optChain a.mission fun m => m.name) = some "")
  ∧ ((mapLaunchToDb a).mission_description = none ↔ (optChain a.mission fun m => m.description) = none ∨ (optChain a.mission fun m => m.description) = some "")
  ∧ ((mapLaunchToDb a).mission_type = none ↔ (optChain a.mission fun m => m.type) = none ∨ (optChain a.mission fun m => m.type) = some "")
  ∧ ((mapLaunchToDb a).mission_orbit_id = none ↔ (optChain (optChain a.mission fun m => m.orbit) fun o => o.id) = none ∨ (optChain (optChain a.mission fun m => m.orbit) fun o => o.id) = some 0)
  ∧ ((mapLaunchToDb a).mission_orbit_name = none ↔ (optChain (optChain a.mission fun m => m.orbit) fun o => o.name) = none ∨ (optChain (optChain a.mission fun m => m.orbit) fun o => o.name) = some "")
  ∧ ((mapLaunchToDb a).mission_orbit_abbrev = none ↔ (optChain (optChain a.mission fun m => m.orbit) fun o => o.«abbrev») = none ∨ (optChain (optChain a.mission fun m => m.orbit) fun o => o.«abbrev») = some "")
  ∧ ((mapLaunchToDb a).spacecraft_stage_id = none ↔ (optChain (optChain a.rocket fun r => r.spacecraft_stage) fun st => st.id) = none ∨ (optChain (optChain a.rocket fun r => r.spacecraft_stage) fun st => st.id) = some 0)
  ∧ ((mapLaunchToDb a).spacecraft_name = none ↔ (optChain (optChain (optChain a.rocket fun r => r.spacecraft_stage) fun st => st.spacecraft) fun sc => sc.name) = none ∨ (optChain (optChain (optChain a.rocket fun r => r.spacecraft_stage) fun st => st.spacecraft) fun sc => sc.name) = some "")
  ∧ ((mapLaunchToDb a).spacecraft_serial_number = none ↔ (optChain (optChain (optChain a.rocket fun r => r.spacecraft_stage) fun st => st.spacecraft) fun sc => sc.serial_number) = none ∨ (optChain (optChain (optChain a.rocket fun r => r.spacecraft_stage) fun st => st.spacecraft) fun sc => sc.serial_number) = some "")
  ∧ ((mapLaunchToDb a).spacecraft_status = none ↔ (optChain (optChain (optChain (optChain a.rocket fun r => r.spacecraft_stage) fun st => st.spacecraft) fun sc => sc.status) fun ss => ss.name) = none ∨ (optChain (optChain (optChain (optChain a.rocket fun r => r.spacecraft_stage) fun st => st.spacecraft) fun sc => sc.status) fun ss => ss.name) = some "")
  ∧ ((mapLaunchToDb a).spacecraft_description = none ↔ (optChain (optChain (optChain a.rocket fun r => r.spacecraft_stage) fun st => st.spacecraft) fun sc => sc.description) = none ∨ (optChain (optChain (optChain a.rocket fun r => r.spacecraft_stage) fun st => st.spacecraft) fun sc => sc.description) = some "")
  ∧ ((mapLaunchToDb a).spacecraft_destination = none ↔ (optChain (optChain a.rocket fun r => r.spacecraft_stage) fun st => st.destination) = none ∨ (optChain (optChain a.rocket fun r => r.spacecraft_stage) fun st => st.destination) = some "")
  ∧ ((mapLaunchToDb a).payload_count = none ↔ (optChain (optChain a.rocket fun r => r.spacecraft_stage) fun st => st.spacecraft_count) = none ∨ (optChain (optChain a.rocket fun r => r.spacecraft_stage) fun st => st.spacecraft_count) = some 0)
  ∧ ((mapLaunchToDb a).payload_total_mass_kg = none ↔ (optChain (optChain (optChain (optChain a.rocket fun r => r.spacecraft_stage) fun st => st.spacecraft) fun sc => sc.spacecraft_config) fun cfg => cfg.payload_capacity) = none ∨ (optChain (optChain (optChain (optChain a.rocket fun r => r.spacecraft_stage) fun st => st.spacecraft) fun sc => sc.spacecraft_config) fun cfg => cfg.payload_capacity) = some 0)
  ∧ ((mapLaunchToDb a).image_url = none ↔ a.image = none ∨ a.image = some "")
  ∧ ((mapLaunchToDb a).infographic_url = none ↔ a.infographic = none ∨ a.infographic = some "")
  ∧ ((mapLaunchToDb a).webcast_live = 0 ↔ a.webcast_live = none ∨ a.webcast_live = some false)
  ∧ ((mapLaunchToDb a).slug_url = none ↔ a.url = none ∨ a.url = some "")
  ∧ ((mapLaunchToDb a).last_updated = none ↔ a.last_updated = none ∨ a.last_updated = some "") :=
  ⟨rfl,
   orNullStr_eq_none a.name,
   orNullStr_eq_none a.slug,
   orNullInt_eq_none (optChain a.status fun s => s.id),
   orNullStr_eq_none (optChain a.status fun s => s.name),
   orNullStr_eq_none (optChain a.status fun s => s.«abbrev»),
   orNullStr_eq_none (optChain a.status fun s => s.description),
   orNullStr_eq_none a.net,
   orNullStr_eq_none a.window_start,
   orNullStr_eq_none a.window_end,
   orNullInt_eq_none (optChain (optChain a.rocket fun r => r.configuration) fun c => c.id),
   orNullStr_eq_none (optChain (optChain a.rocket fun r => r.configuration) fun c => c.name),
   orNullStr_eq_none (optChain (optChain a.rocket fun r => r.configuration) fun c => c.family),
   orNullStr_eq_none (optChain (optChain a.rocket fun r => r.configuration) fun c => c.variant),
   orNullStr_eq_none (optChain (optChain a.rocket fun r => r.configuration) fun c => c.full_name),
   orNullInt_eq_none (optChain a.launch_service_provider fun p => p.id),
   orNullStr_eq_none (optChain a.launch_service_provider fun p => p.name),
   orNullStr_eq_none (optChain a.launch_service_provider fun p => p.«abbrev»),
   orNullStr_eq_none (optChain a.launch_service_provider fun p => p.type),
   orNullStr_eq_none (optChain a.launch_service_provider fun p => p.country_code),
   orNullInt_eq_none (optChain a.pad fun p => p.id),
   orNullStr_eq_none (optChain a.pad fun p => p.name),
   orNullStr_eq_none (optChain a.pad fun p => p.wiki_url),
   orNullStr_eq_none (optChain a.pad fun p => p.map_url),
   orNullInt_eq_none (optChain a.pad fun p => p.latitude),
   orNullInt_eq_none (optChain a.pad fun p => p.longitude),
   orNullInt_eq_none (optChain (optChain a.pad fun p => p.location) fun l => l.id),
   orNullStr_eq_none (optChain (optChain a.pad fun p => p.location) fun l => l.name),
   orNullStr_eq_none (optChain (optChain a.pad fun p => p.location) fun l => l.country_code),
   orNullStr_eq_none (optChain (optChain a.pad fun p => p.location) fun l => l.map_image),
   orNullStr_eq_none (optChain (optChain a.pad fun p => p.location) fun l => l.timezone_name),
   orNullInt_eq_none (optChain a.mission fun m => m.id),
   orNullStr_eq_none (optChain a.mission fun m => m.name),
   orNullStr_eq_none (optChain a.mission fun m => m.description),
   orNullStr_eq_none (optChain a.mission fun m => m.type),
   orNullInt_eq_none (optChain (optChain a.mission fun m => m.orbit) fun o => o.id),
   orNullStr_eq_none (optChain (optChain a.mission fun m => m.orbit) fun o => o.name),
   orNullStr_eq_none (optChain (optChain a.mission fun m => m.orbit) fun o => o.«abbrev»),
   orNullInt_eq_none (optChain (optChain a.rocket fun r => r.spacecraft_stage) fun st => st.id),
   orNullStr_eq_none (optChain (optChain (optChain a.rocket fun r => r.spacecraft_stage) fun st => st.spacecraft) fun sc => sc.name),
   orNullStr_eq_none (optChain (optChain (optChain a.rocket fun r => r.spacecraft_stage) fun st => st.spacecraft) fun sc => sc.serial_number),
   orNullStr_eq_none (optChain (optChain (optChain (optChain a.rocket fun r => r.spacecraft_stage) fun st => st.spacecraft) fun sc => sc.status) fun ss => ss.name),
   orNullStr_eq_none (optChain (optChain (optChain a.rocket fun r => r.spacecraft_stage) fun st => st.spacecraft) fun sc => sc.description),
   orNullStr_eq_none (optChain (optChain a.rocket fun r => r.spacecraft_stage) fun st => st.destination),
   orNullInt_eq_none (optChain (optChain a.rocket fun r => r.spacecraft_stage) fun st => st.spacecraft_count),
   orNullInt_eq_none (optChain (optChain (optChain (optChain a.rocket fun r => r.spacecraft_stage) fun st => st.spacecraft) fun sc => sc.spacecraft_config) fun cfg => cfg.payload_capacity),
   orNullStr_eq_none a.image,
   orNullStr_eq_none a.infographic,
   webcastLiveZero a.webcast_live,
   orNullStr_eq_none a.url,
   orNullStr_eq_none a.last_updated⟩

/-! ### C2 -/

/-- C2: the reconciliation step classifies a mapped record as added when no
row with its id is stored, as updated (with the stored row fully replaced
by the mapped record and the new timestamp) when the stored last_updated
differs, and as unchanged (no write) when the stored last_updated is
identical; a strictly increased timestamp therefore always classifies as
updated and an identical one always as unchanged. -/
theorem C2_classification (store : List DbRow) (m : LaunchFields) (now : Nat) :
    (getLaunchById store m.id = none →
      reconcile store m now = (Classification.added, upsertLaunch store m now))
  ∧ (∀ e, getLaunchById store m.id = some e →
      e.fields.last_updated ≠ m.last_updated →
      reconcile store m now = (Classification.updated, upsertLaunch store m now)
        ∧ getLaunchById (reconcile store m now).2 m.id = some ⟨m, now⟩)
  ∧ (∀ e, getLaunchById store m.id = some e →
      e.fields.last_updated = m.last_updated →
      reconcile store m now = (Classification.unchanged, store))
  ∧ (∀ e t t', getLaunchById store m.id = some e →
      e.fields.last_updated = some t → m.last_updated = some t' → t < t' →
      (reconcile store m now).1 = Classification.updated) := by
  refine ⟨?_, ?_, ?_, ?_⟩
  · intro h
    simp [reconcile, h]
  · intro e he hne
    refine ⟨by simp [reconcile, he, hne], ?_⟩
    simp [reconcile, he, hne, getLaunchById_upsert]
  · intro e he heq
    simp [reconcile, he, heq]
  · intro e t t2 he het hmt hlt
    have hne : e.fields.last_updated ≠ m.last_updated := by
      rw [het, hmt]
      intro hc
      injection hc with hc
      exact absurd hc (ne_of_lt hlt)
    simp [reconcile, he, hne]

/-- C2 (witness): a stored record under an older timestamp reprocessed with
a newer mapped timestamp is classified updated and fully replaced. -/
theorem C2_witness :
    reconcile [⟨lfA, 0⟩] lfB 1 = (Classification.updated, upsertLaunch [⟨lfA, 0⟩] lfB 1)
      ∧ getLaunchById (reconcile [⟨lfA, 0⟩] lfB 1).2 lfB.id = some ⟨lfB, 1⟩ :=
  (C2_classification [⟨lfA, 0⟩] lfB 1).2.1 ⟨lfA, 0⟩ (by decide) (by decide)

/-! ### C6 -/

/-- C6 (counterexample): the claim says the second upsert of the same
mapped record does not alter the stored row, but the upsert statement
restamps updated_at = CURRENT_TIMESTAMP, so the row differs whenever the
clock advanced. -/
theorem C6_counterexample :
    upsertLaunch (upsertLaunch [] lfA 0) lfA 1 ≠ upsertLaunch [] lfA 0 := by
  decide

/-- C6 (amended): upserting the same mapped record twice collapses to one
upsert at the later clock, leaves every record attribute of the store
unchanged (only the updated_at metadata column is restamped), and
reprocessing the identical record classifies as unchanged with no write. -/
theorem C6_upsert_idempotent_mod_timestamp
    (s : List DbRow) (m : LaunchFields) (n1 n2 now : Nat) :
    upsertLaunch (upsertLaunch s m n1) m n2 = upsertLaunch s m n2
  ∧ (upsertLaunch (upsertLaunch s m n1) m n2).map DbRow.fields
      = (upsertLaunch s m n1).map DbRow.fields
  ∧ reconcile (upsertLaunch s m n1) m now
      = (Classification.unchanged, upsertLaunch s m n1) := by
  refine ⟨upsert_upsert s m n1 n2, ?_, ?_⟩
  · rw [upsert_upsert]
    exact fields_upsert s m n2 n1
  · simp [reconcile, getLaunchById_upsert]

/-! ### C10 -/

/-- C10: with the state predicate unset, queryLaunches of
backend/src/db/database.js and the queryLaunches copy of
src/unnamed/part_004 build the same predicates, sort and pagination and
return equal results. -/
theorem C10_query_copies_equal (nowS : String) (f : Filters) (store : List DbRow)
    (h : f.state = none) :
    queryLaunches nowS f store = queryLaunchesP4 nowS f store := by
  have hrow : ∀ r : LaunchFields, rowMatchesDb nowS f r = rowMatchesP4 nowS f r := by
    intro r
    simp [rowMatchesDb, rowMatchesP4, h, whenActive]
  have hfilter : (store.filter fun r => rowMatchesDb nowS f r.fields)
      = store.filter fun r => rowMatchesP4 nowS f r.fields :=
    List.filter_congr (fun r _ => hrow r.fields)
  simp [queryLaunches, queryLaunchesP4, hfilter]

/-- C10 (witness): the two query implementations agree on a five-row store
under the default filters. -/
theorem C10_witness :
    queryLaunches ("T") fDefault storeFive = queryLaunchesP4 ("T") fDefault storeFive :=
  C10_query_copies_equal ("T") fDefault storeFive rfl

/-! ### C8 -/

/-- C8 (counterexample): the claim says any negative input is brought into
range before the query, but a negative limit passes the parseInt-or-20
parse (negative numbers are truthy) and the only cap is the upper one, and
a negative offset passes through parseInt-or-0 unchanged. -/
theorem C8_counterexample :
    routeLimit (some (-5)) = -5
  ∧ routeOffset (some (-3)) = -3
  ∧ ¬ 1 ≤ routeLimit (some (-5))
  ∧ ¬ 0 ≤ routeOffset (some (-3)) := by
  decide

/-- C8 (amended): for non-numeric, zero or positive limit inputs and
non-numeric, zero or positive offset inputs, the effective values passed to
the store query satisfy 1 <= limit <= 100 and offset >= 0; negative numeric
inputs are passed through unclamped. -/
theorem C8_pagination_clamped (ql qo : Option Int)
    (hl : ∀ n, ql = some n → 0 ≤ n) (ho : ∀ n, qo = some n → 0 ≤ n) :
    1 ≤ routeLimit ql ∧ routeLimit ql ≤ 100 ∧ 0 ≤ routeOffset qo := by
  have hLim : 1 ≤ routeLimit ql ∧ routeLimit ql ≤ 100 := by
    cases ql with
    | none => exact ⟨by decide, by decide⟩
    | some n =>
      have hn := hl n rfl
      simp only [routeLimit, jsOrInt]
      split_ifs <;> omega
  have hOff : 0 ≤ routeOffset qo := by
    cases qo with
    | none => decide
    | some k =>
      have hk := ho k rfl
      simp only [routeOffset, jsOrInt]
      split_ifs <;> omega
  exact ⟨hLim.1, hLim.2, hOff⟩

/-- C8 (witness): an over-limit input 250 is capped to 100 and a zero
offset stays zero. -/
theorem C8_witness :
    1 ≤ routeLimit (some 250) ∧ routeLimit (some 250) ≤ 100 ∧ 0 ≤ routeOffset (some 0) :=
  C8_pagination_clamped (some 250) (some 0)
    (by intro n h; injection h with h2; omega)
    (by intro n h; injection h with h2; omega)

/-! ### C9 -/

/-- C9 (counterexample): the route computes hasMore as offset + limit <
total, which differs from offset + len(page) < total when a negative offset
input reaches the query: with five matching rows, offset -1 and limit 10
the code yields false while the specified flag is true. -/
theorem C9_counterexample :
    routeOffset (some (-1)) = fNegOffset.offset
  ∧ hasMoreFlag fNegOffset.offset fNegOffset.limit
      (queryLaunches ("T") fNegOffset storeFive).total = false
  ∧ decide (fNegOffset.offset
        + ((queryLaunches ("T") fNegOffset storeFive).launches.length : Int)
        < ((queryLaunches ("T") fNegOffset storeFive).total : Int)) = true := by
  decide

/-- C9 (amended): whenever the effective offset and limit are nonnegative
(which the route guarantees for all non-negative inputs), the flag
offset + limit < total computed by the route equals the specified
offset + len(page) < totalMatching. -/
theorem C9_hasMore_matches_page_len (nowS : String) (f : Filters) (store : List DbRow)
    (hoff : 0 ≤ f.offset) (hlim : 0 ≤ f.limit) :
    hasMoreFlag f.offset f.limit (queryLaunches nowS f store).total
      = decide (f.offset + ((queryLaunches nowS f store).launches.length : Int)
          < ((queryLaunches nowS f store).total : Int)) := by
  have hnotneg : ¬ f.limit < 0 := not_lt.mpr hlim
  have hlen : (queryLaunches nowS f store).launches.length
      = min f.limit.toNat ((queryLaunches nowS f store).total - f.offset.toNat) := by
    simp [queryLaunches, sqlPage, hnotneg, List.length_take, List.length_drop,
      length_sortByLe]
  rw [hasMoreFlag, hlen]
  set N := (queryLaunches nowS f store).total
  simp only [decide_eq_decide]
  omega

/-- C9 (witness): with the default pagination (offset 0, limit 20) on a
five-row store both sides of the equality evaluate alike. -/
theorem C9_witness :
    hasMoreFlag fDefault.offset fDefault.limit
        (queryLaunches ("T") fDefault storeFive).total
      = decide (fDefault.offset
          + ((queryLaunches ("T") fDefault storeFive).launches.length : Int)
          < ((queryLaunches ("T") fDefault storeFive).total : Int)) :=
  C9_hasMore_matches_page_len ("T") fDefault storeFive (by decide) (by decide)

/-! ### C4 -/

/-- C4 (code bug): createSyncLog performs no admission check, so invoking
the incremental workflow while a full-load run is still running leaves two
journal rows in status running; the spec mandates rejection or queueing. -/
theorem C4_two_running_runs :
    ((dailySyncInit (initialLoadInit []).journal).2.filter
        fun r => r.status == "running").length = 2 := by
  decide

/-! ### C7 -/

/-- C7 (counterexample): the claim says a malformed adapter response always
aborts the run with status failed, but a response with no results array
makes the loop break and the run is marked success. -/
theorem C7_counterexample :
    (findRun (runDailySync [] [] [PageResp.ok none true]).1 1).map SyncRun.status
      = some ("success") := by
  decide

/-- C7 (amended): a record whose mapping throws is skipped with no counter
and no store change; a record whose store write throws is skipped after the
fetched increment, with no store change and no added or updated count, and
the fold continues with the remaining records of the page; a thrown page
fetch always ends the run with status failed; but an adapter response with
no results array ends the run with status success rather than failed. -/
theorem C7_failure_propagation :
    (∀ (st : LoopState) (b : Bool),
      dailyProcessItem st { mapResult := none, upsertOk := b } = st)
  ∧ (∀ (st : LoopState) (m : LaunchFields),
      (dailyProcessItem st { mapResult := some m, upsertOk := false }).store = st.store
    ∧ (dailyProcessItem st { mapResult := some m, upsertOk := false }).fetched = st.fetched + 1
    ∧ (dailyProcessItem st { mapResult := some m, upsertOk := false }).added = st.added
    ∧ (dailyProcessItem st { mapResult := some m, upsertOk := false }).updated = st.updated)
  ∧ (∀ (st : LoopState) (it : RawItem) (items : List RawItem),
      List.foldl dailyProcessItem st (it :: items)
        = List.foldl dailyProcessItem (dailyProcessItem st it) items)
  ∧ (∀ (j : List SyncRun) (syncId : Nat) (st : LoopState) (msg : String)
        (rl : Bool) (rest : List PageResp),
      dailyLoop j syncId st (PageResp.fail msg rl :: rest)
        = (markDailyFailed j syncId st msg, st))
  ∧ (∀ (j : List SyncRun) (syncId : Nat) (st : LoopState) (hn : Bool)
        (rest : List PageResp),
      dailyLoop j syncId st (PageResp.ok none hn :: rest)
        = (markDailySuccess j syncId { st with apiCalls := st.apiCalls + 1 },
           { st with apiCalls := st.apiCalls + 1 })) := by
  refine ⟨fun st b => rfl, ?_, fun st it items => rfl, fun j i st msg rl rest => rfl,
    fun j i st hn rest => rfl⟩
  intro st m
  unfold dailyProcessItem
  cases h : getLaunchById st.store m.id with
  | none => simp [h]
  | some e =>
    by_cases he : e.fields.last_updated = m.last_updated
    · simp [h, he]
    · simp [h, he]

/-! ### C1 -/

/-- C1 (counterexample): the claim says every workflow invocation resumes a
running run of its own type and that failed runs are later resumed from
their checkpoint; but dailySync always creates a fresh run (id 2, counters
zero, loop offset zero) even while run 7 of the same type is running with
checkpoint 300, and initialLoad ignores a failed full run with checkpoint
200 and starts a fresh run from offset zero. -/
theorem C1_counterexample :
    (dailySyncInit [runningIncremental]).1 = 2
  ∧ (2 : Nat) ≠ runningIncremental.id
  ∧ (dailySyncInit [runningIncremental]).2.length = 2
  ∧ (findRun (dailySyncInit [runningIncremental]).2 2).map SyncRun.records_fetched = some 0
  ∧ (runDailySync [runningIncremental] [] []).2.offset = 0
  ∧ (initialLoadInit [failedFull]).syncId = 2
  ∧ (initialLoadInit [failedFull]).offset = 0 := by
  decide

/-- C1 (amended): only the Full-Load workflow resumes: when the journal
holds a running full run it is resumed from last_api_offset + 100 with
records_fetched, records_added and api_calls_made carried forward (and
records_updated restarted at zero), otherwise a fresh full run is created;
the Incremental-Sync workflow always creates a fresh run; and a run whose
status is not running, in particular a failed run with its checkpoint
intact, is never picked up for resumption. -/
theorem C1_resume_protocol (j : List SyncRun) :
    (∀ r, findIncompleteFull j = some r →
      initialLoadInit j =
        { syncId := r.id, offset := r.last_api_offset.getD 0 + 100,
          fetched := r.records_fetched, added := r.records_added,
          apiCalls := r.api_calls_made, journal := j })
  ∧ (findIncompleteFull j = none →
      initialLoadInit j =
        { syncId := j.length + 1, offset := 0, fetched := 0,
          added := 0, apiCalls := 0,
          journal := { id := j.length + 1, sync_type := "full" } :: j })
  ∧ dailySyncInit j
      = (j.length + 1, { id := j.length + 1, sync_type := "incremental" } :: j)
  ∧ ((∀ r ∈ j, r.status ≠ ("running")) → findIncompleteFull j = none) := by
  refine ⟨?_, ?_, rfl, ?_⟩
  · intro r h
    simp [initialLoadInit, h]
  · intro h
    simp [initialLoadInit, h, createSyncLog]
  · intro h
    unfold findIncompleteFull
    rw [List.find?_eq_none]
    intro r hr
    have hs := h r hr
    simp [isRunningFull, hs]

/-- C1 (witness): a journal holding a running full run with checkpoint 100
and counters 200, 200, 2 is resumed at offset 200 with those counters. -/
theorem C1_witness :
    initialLoadInit [runningFullEx]
      = { syncId := 5, offset := 200, fetched := 200, added := 200,
            apiCalls := 2, journal := [runningFullEx] } :=
  (C1_resume_protocol [runningFullEx]).1 runningFullEx (by decide)

/-! ### C5 support lemmas -/

theorem fullProcessItem_counts (st : LoopState) (it : RawItem) :
    (fullProcessItem st it).updated = st.updated
  ∧ (fullProcessItem st it).unchanged = st.unchanged
  ∧ ((fullProcessItem st it).fetched = st.fetched + 1
        ∧ (fullProcessItem st it).added = st.added + 1
    ∨ (fullProcessItem st it).fetched = st.fetched
        ∧ (fullProcessItem st it).added = st.added) := by
  unfold fullProcessItem
  cases hm : it.mapResult with
  | none => simp [hm]
  | some m =>
    by_cases ho : it.upsertOk
    · simp [hm, ho]
    · simp [hm, ho]

theorem fullFold_counts (items : List RawItem) : ∀ st : LoopState,
    st.fetched = st.added →
    ((items.foldl fullProcessItem st).fetched = (items.foldl fullProcessItem st).added
  ∧ (items.foldl fullProcessItem st).updated = st.updated
  ∧ (items.foldl fullProcessItem st).unchanged = st.unchanged) := by
  induction items with
  | nil =>
    intro st h
    exact ⟨h, rfl, rfl⟩
  | cons it its ih =>
    intro st h
    simp only [List.foldl_cons]
    have hi := fullProcessItem_counts st it
    have hnext : (fullProcessItem st it).fetched = (fullProcessItem st it).added := by
      rcases hi.2.2 with ⟨h1, h2⟩ | ⟨h1, h2⟩ <;> omega
    have hrec := ih (fullProcessItem st it) hnext
    exact ⟨hrec.1, by rw [hrec.2.1, hi.1], by rw [hrec.2.2, hi.2.1]⟩

theorem dailyProcessItem_sum (st : LoopState) (it : RawItem) (h : it.upsertOk = true)
    (hsum : st.fetched = st.added + st.updated + st.unchanged) :
    (dailyProcessItem st it).fetched
      = (dailyProcessItem st it).added + (dailyProcessItem st it).updated
        + (dailyProcessItem st it).unchanged := by
  unfold dailyProcessItem
  cases hm : it.mapResult with
  | none => simpa [hm] using hsum
  | some m =>
    cases hg : getLaunchById st.store m.id with
    | none =>
      simp [hm, hg, h]
      omega
    | some e =>
      by_cases he : e.fields.last_updated = m.last_updated
      · simp [hm, hg, he]
        omega
      · simp [hm, hg, he, h]
        omega

theorem dailyFold_sum (items : List RawItem) : ∀ st : LoopState,
    items.all (fun it => it.upsertOk) = true →
    st.fetched = st.added + st.updated + st.unchanged →
    (items.foldl dailyProcessItem st).fetched
      = (items.foldl dailyProcessItem st).added
        + (items.foldl dailyProcessItem st).updated
        + (items.foldl dailyProcessItem st).unchanged := by
  induction items with
  | nil =>
    intro st _ h
    exact h
  | cons it its ih =>
    intro st hall hsum
    have hs : it.upsertOk = true ∧ its.all (fun x => x.upsertOk) = true := by
      simpa [List.all_cons, Bool.and_eq_true] using hall
    simp only [List.foldl_cons]
    exact ih (dailyProcessItem st it) hs.2 (dailyProcessItem_sum st it hs.1 hsum)

theorem findRun_updateSyncLog (j : List SyncRun) (syncId : Nat) (upd : SyncRun → SyncRun)
    (hid : ∀ r, (upd r).id = r.id) :
    findRun (updateSyncLog j syncId upd) syncId = (findRun j syncId).map upd := by
  induction j with
  | nil => rfl
  | cons r rs ih =>
    by_cases h : r.id = syncId
    · have hb2 : ((upd r).id == syncId) = true := by simp [hid r, h]
      simp [updateSyncLog, findRun, List.find?, h, hb2]
    · have hb : (r.id == syncId) = false := by simp [h]
      simpa [updateSyncLog, findRun, List.find?, h, hb] using ih

theorem findRun_markFullFailed (j : List SyncRun) (syncId : Nat) (st : LoopState)
    (msg : String) (r0 : SyncRun) (h : findRun j syncId = some r0) :
    findRun (markFullFailed j syncId st msg) syncId
      = some { r0 with
          status := "failed", error_message := some msg,
          records_fetched := st.fetched, records_added := st.added,
          api_calls_made := st.apiCalls } := by
  unfold markFullFailed
  rw [findRun_updateSyncLog j syncId
    (fun r => { r with
      status := "failed", error_message := some msg,
      records_fetched := st.fetched, records_added := st.added,
      api_calls_made := st.apiCalls }) (fun r => rfl), h]
  rfl

theorem findRun_markFullSuccess (j : List SyncRun) (syncId : Nat) (st : LoopState)
    (r0 : SyncRun) (h : findRun j syncId = some r0) :
    findRun (markFullSuccess j syncId st) syncId
      = some { r0 with
          status := "success", records_fetched := st.fetched,
          records_added := st.added, records_updated := st.updated,
          api_calls_made := st.apiCalls } := by
  unfold markFullSuccess
  rw [findRun_updateSyncLog j syncId
    (fun r => { r with
      status := "success", records_fetched := st.fetched,
      records_added := st.added, records_updated := st.updated,
      api_calls_made := st.apiCalls }) (fun r => rfl), h]
  rfl

theorem findRun_checkpointFull (j : List SyncRun) (syncId : Nat) (st : LoopState)
    (r0 : SyncRun) (h : findRun j syncId = some r0) :
    findRun (checkpointFull j syncId st) syncId
      = some { r0 with
          records_fetched := st.fetched, records_added := st.added,
          records_updated := st.updated, api_calls_made := st.apiCalls,
          last_api_offset := some st.offset } := by
  unfold checkpointFull
  rw [findRun_updateSyncLog j syncId
    (fun r => { r with
      records_fetched := st.fetched, records_added := st.added,
      records_updated := st.updated, api_calls_made := st.apiCalls,
      last_api_offset := some st.offset }) (fun r => rfl), h]
  rfl

theorem findRun_markDailyFailed (j : List SyncRun) (syncId : Nat) (st : LoopState)
    (msg : String) (r0 : SyncRun) (h : findRun j syncId = some r0) :
    findRun (markDailyFailed j syncId st msg) syncId
      = some { r0 with
          status := "failed", error_message := some msg,
          records_fetched := st.fetched, records_added := st.added,
          records_updated := st.updated, api_calls_made := st.apiCalls } := by
  unfold markDailyFailed
  rw [findRun_updateSyncLog j syncId
    (fun r => { r with
      status := "failed", error_message := some msg,
      records_fetched := st.fetched, records_added := st.added,
      records_updated := st.updated, api_calls_made := st.apiCalls })
    (fun r => rfl), h]
  rfl

theorem findRun_markDailySuccess (j : List SyncRun) (syncId : Nat) (st : LoopState)
    (r0 : SyncRun) (h : findRun j syncId = some r0) :
    findRun (markDailySuccess j syncId st) syncId
      = some { r0 with
          status := "success", records_fetched := st.fetched,
          records_added := st.added, records_updated := st.updated,
          records_unchanged := st.unchanged, api_calls_made := st.apiCalls } := by
  unfold markDailySuccess
  rw [findRun_updateSyncLog j syncId
    (fun r => { r with
      status := "success", records_fetched := st.fetched,
      records_added := st.added, records_updated := st.updated,
      records_unchanged := st.unchanged, api_calls_made := st.apiCalls })
    (fun r => rfl), h]
  rfl

theorem findRun_checkpointDaily (j : List SyncRun) (syncId : Nat) (st : LoopState)
    (r0 : SyncRun) (h : findRun j syncId = some r0) :
    findRun (checkpointDaily j syncId st) syncId
      = some { r0 with
          records_fetched := st.fetched, records_added := st.added,
          records_updated := st.updated, records_unchanged := st.unchanged,
          api_calls_made := st.apiCalls, last_api_offset := some st.offset } := by
  unfold checkpointDaily
  rw [findRun_updateSyncLog j syncId
    (fun r => { r with
      records_fetched := st.fetched, records_added := st.added,
      records_updated := st.updated, records_unchanged := st.unchanged,
      api_calls_made := st.apiCalls, last_api_offset := some st.offset })
    (fun r => rfl), h]
  rfl

theorem fullLoop_terminal_counters (pages : List PageResp) :
    ∀ (j : List SyncRun) (syncId : Nat) (st : LoopState) (retries : Nat) (r0 : SyncRun),
    findRun j syncId = some r0 →
    r0.status = "running" →
    r0.records_updated = 0 →
    r0.records_unchanged = 0 →
    st.fetched = st.added →
    st.updated = 0 →
    ∀ rf, findRun (fullLoop j syncId st retries pages).1 syncId = some rf →
    (rf.status = "success" ∨ rf.status = "failed") →
    rf.records_fetched = rf.records_added + rf.records_updated + rf.records_unchanged := by
  induction pages with
  | nil =>
    intro j syncId st retries r0 hfind hrun _ _ _ _ rf hrf hterm
    have hstep : (fullLoop j syncId st retries []).1 = j := rfl
    rw [hstep, hfind] at hrf
    injection hrf with h2
    subst h2
    rcases hterm with h | h <;> rw [hrun] at h <;> exact absurd h (by decide)
  | cons p rest ih =>
    intro j syncId st retries r0 hfind hrun hupd0 hunch0 hfa hu0 rf hrf hterm
    cases p with
    | fail msg rl =>
      cases rl with
      | false =>
        have hstep : (fullLoop j syncId st retries (PageResp.fail msg false :: rest)).1
            = markFullFailed j syncId st msg := rfl
        rw [hstep, findRun_markFullFailed j syncId st msg r0 hfind] at hrf
        injection hrf with h2
        subst h2
        show st.fetched = st.added + r0.records_updated + r0.records_unchanged
        omega
      | true =>
        by_cases hr : retries + 1 > 3
        · have hstep : (fullLoop j syncId st retries (PageResp.fail msg true :: rest)).1
              = markFullFailed j syncId st rateLimitMsg := by
            show (if retries + 1 > 3 then (markFullFailed j syncId st rateLimitMsg, st)
              else fullLoop j syncId st (retries + 1) rest).1 = _
            rw [if_pos hr]
          rw [hstep, findRun_markFullFailed j syncId st rateLimitMsg r0 hfind] at hrf
          injection hrf with h2
          subst h2
          show st.fetched = st.added + r0.records_updated + r0.records_unchanged
          omega
        · have hstep : (fullLoop j syncId st retries (PageResp.fail msg true :: rest)).1
              = (fullLoop j syncId st (retries + 1) rest).1 := by
            show (if retries + 1 > 3 then (markFullFailed j syncId st rateLimitMsg, st)
              else fullLoop j syncId st (retries + 1) rest).1 = _
            rw [if_neg hr]
          rw [hstep] at hrf
          exact ih j syncId st (retries + 1) r0 hfind hrun hupd0 hunch0 hfa hu0 rf hrf hterm
    | ok results hasNext =>
      cases results with
      | none =>
        have hstep : (fullLoop j syncId st retries (PageResp.ok none hasNext :: rest)).1
            = markFullSuccess j syncId { st with apiCalls := st.apiCalls + 1 } := rfl
        rw [hstep, findRun_markFullSuccess j syncId _ r0 hfind] at hrf
        injection hrf with h2
        subst h2
        show st.fetched = st.added + st.updated + r0.records_unchanged
        omega
      | some items =>
        cases items with
        | nil =>
          have hstep : (fullLoop j syncId st retries
              (PageResp.ok (some []) hasNext :: rest)).1
            = markFullSuccess j syncId { st with apiCalls := st.apiCalls + 1 } := rfl
          rw [hstep, findRun_markFullSuccess j syncId _ r0 hfind] at hrf
          injection hrf with h2
          subst h2
          show st.fetched = st.added + st.updated + r0.records_unchanged
          omega
        | cons it its =>
          have hfold := fullFold_counts (it :: its)
            { st with apiCalls := st.apiCalls + 1 } hfa
          have hupdA : ((it :: its).foldl fullProcessItem
              { st with apiCalls := st.apiCalls + 1 }).updated = 0 := hfold.2.1.trans hu0
          cases hasNext with
          | true =>
            have hstep : (fullLoop j syncId st retries
                (PageResp.ok (some (it :: its)) true :: rest)).1
              = (fullLoop (checkpointFull j syncId
                  ((it :: its).foldl fullProcessItem { st with apiCalls := st.apiCalls + 1 }))
                  syncId
                  { (it :: its).foldl fullProcessItem
                      { st with apiCalls := st.apiCalls + 1 } with
                    offset := ((it :: its).foldl fullProcessItem
                      { st with apiCalls := st.apiCalls + 1 }).offset + 100 }
                  0 rest).1 := rfl
            rw [hstep] at hrf
            exact ih (checkpointFull j syncId ((it :: its).foldl fullProcessItem
                { st with apiCalls := st.apiCalls + 1 })) syncId
              { (it :: its).foldl fullProcessItem
                  { st with apiCalls := st.apiCalls + 1 } with
                offset := ((it :: its).foldl fullProcessItem
                  { st with apiCalls := st.apiCalls + 1 }).offset + 100 }
              0 _
              (findRun_checkpointFull j syncId _ r0 hfind)
              hrun hupdA hunch0 hfold.1 hupdA rf hrf hterm
          | false =>
            have hstep : (fullLoop j syncId st retries
                (PageResp.ok (some (it :: its)) false :: rest)).1
              = markFullSuccess (checkpointFull j syncId
                  ((it :: its).foldl fullProcessItem { st with apiCalls := st.apiCalls + 1 }))
                  syncId
                  { (it :: its).foldl fullProcessItem
                      { st with apiCalls := st.apiCalls + 1 } with
                    offset := ((it :: its).foldl fullProcessItem
                      { st with apiCalls := st.apiCalls + 1 }).offset + 100 } := rfl
            rw [hstep, findRun_markFullSuccess _ syncId _ _
              (findRun_checkpointFull j syncId _ r0 hfind)] at hrf
            injection hrf with h2
            subst h2
            have h1 := hfold.1
            show ((it :: its).foldl fullProcessItem
                { st with apiCalls := st.apiCalls + 1 }).fetched
              = ((it :: its).foldl fullProcessItem
                  { st with apiCalls := st.apiCalls + 1 }).added
                + ((it :: its).foldl fullProcessItem
                  { st with apiCalls := st.apiCalls + 1 }).updated
                + r0.records_unchanged
            omega

theorem dailyLoop_terminal_counters (pages : List PageResp) :
    ∀ (j : List SyncRun) (syncId : Nat) (st : LoopState) (r0 : SyncRun),
    pagesAllOk pages = true →
    findRun j syncId = some r0 →
    r0.status = "running" →
    r0.records_unchanged = st.unchanged →
    st.fetched = st.added + st.updated + st.unchanged →
    ∀ rf, findRun (dailyLoop j syncId st pages).1 syncId = some rf →
    (rf.status = "success" ∨ rf.status = "failed") →
    rf.records_fetched = rf.records_added + rf.records_updated + rf.records_unchanged := by
  induction pages with
  | nil =>
    intro j syncId st r0 _ hfind hrun _ _ rf hrf hterm
    have hstep : (dailyLoop j syncId st []).1 = j := rfl
    rw [hstep, hfind] at hrf
    injection hrf with h2
    subst h2
    rcases hterm with h | h <;> rw [hrun] at h <;> exact absurd h (by decide)
  | cons p rest ih =>
    intro j syncId st r0 hall hfind hrun hunch hsum rf hrf hterm
    have hallp : pageAllOk p = true ∧ pagesAllOk rest = true := by
      simpa [pagesAllOk, List.all_cons, Bool.and_eq_true] using hall
    cases p with
    | fail msg rl =>
      have hstep : (dailyLoop j syncId st (PageResp.fail msg rl :: rest)).1
          = markDailyFailed j syncId st msg := rfl
      rw [hstep, findRun_markDailyFailed j syncId st msg r0 hfind] at hrf
      injection hrf with h2
      subst h2
      show st.fetched = st.added + st.updated + r0.records_unchanged
      omega
    | ok results hasNext =>
      cases results with
      | none =>
        have hstep : (dailyLoop j syncId st (PageResp.ok none hasNext :: rest)).1
            = markDailySuccess j syncId { st with apiCalls := st.apiCalls + 1 } := rfl
        rw [hstep, findRun_markDailySuccess j syncId _ r0 hfind] at hrf
        injection hrf with h2
        subst h2
        show st.fetched = st.added + st.updated + st.unchanged
        omega
      | some items =>
        cases items with
        | nil =>
          have hstep : (dailyLoop j syncId st (PageResp.ok (some []) hasNext :: rest)).1
              = markDailySuccess j syncId { st with apiCalls := st.apiCalls + 1 } := rfl
          rw [hstep, findRun_markDailySuccess j syncId _ r0 hfind] at hrf
          injection hrf with h2
          subst h2
          show st.fetched = st.added + st.updated + st.unchanged
          omega
        | cons it its =>
          have hsumA := dailyFold_sum (it :: its)
            { st with apiCalls := st.apiCalls + 1 } hallp.1 hsum
          cases hasNext with
          | true =>
            have hstep : (dailyLoop j syncId st
                (PageResp.ok (some (it :: its)) true :: rest)).1
              = (dailyLoop (checkpointDaily j syncId
                  ((it :: its).foldl dailyProcessItem { st with apiCalls := st.apiCalls + 1 }))
                  syncId
                  { (it :: its).foldl dailyProcessItem
                      { st with apiCalls := st.apiCalls + 1 } with
                    offset := ((it :: its).foldl dailyProcessItem
                      { st with apiCalls := st.apiCalls + 1 }).offset + 100 }
                  rest).1 := rfl
            rw [hstep] at hrf
            exact ih (checkpointDaily j syncId ((it :: its).foldl dailyProcessItem
                { st with apiCalls := st.apiCalls + 1 })) syncId
              { (it :: its).foldl dailyProcessItem
                  { st with apiCalls := st.apiCalls + 1 } with
                offset := ((it :: its).foldl dailyProcessItem
                  { st with apiCalls := st.apiCalls + 1 }).offset + 100 }
              _ hallp.2
              (findRun_checkpointDaily j syncId _ r0 hfind)
              hrun rfl hsumA rf hrf hterm
          | false =>
            have hstep : (dailyLoop j syncId st
                (PageResp.ok (some (it :: its)) false :: rest)).1
              = markDailySuccess (checkpointDaily j syncId
                  ((it :: its).foldl dailyProcessItem { st with apiCalls := st.apiCalls + 1 }))
                  syncId
                  { (it :: its).foldl dailyProcessItem
                      { st with apiCalls := st.apiCalls + 1 } with
                    offset := ((it :: its).foldl dailyProcessItem
                      { st with apiCalls := st.apiCalls + 1 }).offset + 100 } := rfl
            rw [hstep, findRun_markDailySuccess _ syncId _ _
              (findRun_checkpointDaily j syncId _ r0 hfind)] at hrf
            injection hrf with h2
            subst h2
            show ((it :: its).foldl dailyProcessItem
                { st with apiCalls := st.apiCalls + 1 }).fetched
              = ((it :: its).foldl dailyProcessItem
                  { st with apiCalls := st.apiCalls + 1 }).added
                + ((it :: its).foldl dailyProcessItem
                  { st with apiCalls := st.apiCalls + 1 }).updated
                + ((it :: its).foldl dailyProcessItem
                  { st with apiCalls := st.apiCalls + 1 }).unchanged
            omega

/-! ### C5 -/

/-- C5 (counterexample): an incremental run over one page holding a single
record whose store write throws reaches the terminal status success with
fetched = 1 while added + updated + unchanged = 0: the fetched counter is
incremented before the write and the catch block counts nothing. -/
theorem C5_counterexample :
    (findRun (runDailySync [] [] [PageResp.ok (some [badItem]) false]).1 1).map
        (fun r => (r.status, r.records_fetched,
          r.records_added + r.records_updated + r.records_unchanged))
      = some (("success"), 1, 0) := by
  decide

/-- C5 (amended): at every terminal status a Full-Load run satisfies
fetched = added + updated + unchanged, whether started fresh or resumed,
provided any resumed running full row is the unique journal row under its
id (run ids are the primary key) and carries a balanced checkpoint
(fetched = added and updated = unchanged = 0 — the shape of every
checkpoint the Full-Load code itself writes, since it never increments
updated or unchanged and every successful write counts as both fetched and
added); an Incremental-Sync run satisfies the equation at any terminal
status provided every record-level store write succeeds — a record whose
write throws is counted as fetched but under no classification counter,
which breaks the equation (see the C5 counterexample). -/
theorem C5_counters_balance :
    (∀ (j : List SyncRun) (store : List DbRow) (pages : List PageResp) (rf : SyncRun),
      (∀ r, findIncompleteFull j = some r →
        findRun j r.id = some r
        ∧ r.records_fetched = r.records_added
        ∧ r.records_updated = 0
        ∧ r.records_unchanged = 0) →
      findRun (runInitialLoad j store pages).1 (initialLoadInit j).syncId = some rf →
      (rf.status = "success" ∨ rf.status = "failed") →
      rf.records_fetched = rf.records_added + rf.records_updated + rf.records_unchanged)
  ∧ (∀ (j : List SyncRun) (store : List DbRow) (pages : List PageResp) (rf : SyncRun),
      pagesAllOk pages = true →
      findRun (runDailySync j store pages).1 (dailySyncInit j).1 = some rf →
      (rf.status = "success" ∨ rf.status = "failed") →
      rf.records_fetched = rf.records_added + rf.records_updated + rf.records_unchanged) := by
  constructor
  · intro j store pages rf hres hrf hterm
    cases h : findIncompleteFull j with
    | none =>
      have hini : initialLoadInit j
          = ⟨j.length + 1, 0, 0, 0, 0, { id := j.length + 1, sync_type := "full" } :: j⟩ := by
        simp [initialLoadInit, h, createSyncLog]
      have hstep : (runInitialLoad j store pages).1
          = (fullLoop ({ id := j.length + 1, sync_type := "full" } :: j) (j.length + 1)
              { store := store } 0 pages).1 := by
        unfold runInitialLoad
        rw [hini]
      rw [hstep, hini] at hrf
      have hfind : findRun ({ id := j.length + 1, sync_type := "full" } :: j) (j.length + 1)
          = some { id := j.length + 1, sync_type := "full" } := by
        simp [findRun, List.find?]
      exact fullLoop_terminal_counters pages _ _ _ 0 _ hfind rfl rfl rfl rfl rfl rf hrf hterm
    | some r =>
      obtain ⟨hfind, hfa, hupd, hunch⟩ := hres r h
      have hp : isRunningFull r = true := List.find?_some h
      have hrunning : r.status = "running" := by
        simp [isRunningFull, Bool.and_eq_true] at hp
        exact hp.2
      have hini : initialLoadInit j
          = ⟨r.id, r.last_api_offset.getD 0 + 100, r.records_fetched, r.records_added,
             r.api_calls_made, j⟩ := by
        simp [initialLoadInit, h]
      have hstep : (runInitialLoad j store pages).1
          = (fullLoop j r.id
              { store := store, offset := r.last_api_offset.getD 0 + 100,
                fetched := r.records_fetched, added := r.records_added,
                apiCalls := r.api_calls_made } 0 pages).1 := by
        unfold runInitialLoad
        rw [hini]
      rw [hstep, hini] at hrf
      exact fullLoop_terminal_counters pages j r.id _ 0 r hfind hrunning hupd hunch hfa rfl
        rf hrf hterm
  · intro j store pages rf hall hrf hterm
    have hstep : (runDailySync j store pages).1
        = (dailyLoop ({ id := j.length + 1, sync_type := "incremental" } :: j)
            (j.length + 1) { store := store } pages).1 := rfl
    rw [hstep] at hrf
    have hfind : findRun ({ id := j.length + 1, sync_type := "incremental" } :: j)
        (j.length + 1) = some { id := j.length + 1, sync_type := "incremental" } := by
      simp [findRun, List.find?]
    exact dailyLoop_terminal_counters pages _ _ _ _ hall hfind rfl rfl rfl rf hrf hterm

/-- C5 (witness): resuming the running full run of runningFullEx (balanced
checkpoint 200 fetched, 200 added) over one final empty page reaches a
terminal success row with balanced counters, and a fresh incremental run
over an empty corpus does as well. -/
theorem C5_witness :
    rfFullResumedEx.records_fetched
      = rfFullResumedEx.records_added + rfFullResumedEx.records_updated
        + rfFullResumedEx.records_unchanged
  ∧ rfDailyEx.records_fetched
      = rfDailyEx.records_added + rfDailyEx.records_updated + rfDailyEx.records_unchanged :=
  ⟨C5_counters_balance.1 [runningFullEx] [] [PageResp.ok none false] rfFullResumedEx
      (by
        intro r hr
        have h2 : findIncompleteFull [runningFullEx] = some runningFullEx := by decide
        rw [h2] at hr
        have h3 : runningFullEx = r := Option.some.inj hr
        subst h3
        exact ⟨by decide, by decide, by decide, by decide⟩)
      (by decide) (Or.inl rfl),
   C5_counters_balance.2 [] [] [PageResp.ok none false] rfDailyEx (by decide) (by decide)
      (Or.inl rfl)⟩

end RocketTracker
